import Mathlib

/-!
Shallow embedding of the Survey App server (src/main.py).

Users and Forms live in two MongoDB collections; each collection is
modelled as a list of documents in insertion order, and the ObjectId
generator as a counter on the store.  Optional record fields model
dictionary keys that a stored document may or may not carry.
-/

namespace Survey

/-- A MongoDB field value used as `_id`: either a store-generated ObjectId
(modelled by a counter value) or a plain string (as produced by Python
`str`).  The two are distinct BSON types, so an ObjectId never compares
equal to a string. -/
inductive BsonId where
  | oid (n : Nat)
  | str (t : String)
deriving DecidableEq

/-- Python `str` applied to an `_id` value, as in `str(data["_id"])`. -/
def strBson : BsonId → BsonId
  | .oid n => .str (toString n)
  | .str t => .str t

/-- The empty string (Python falsy string). -/
def emptyStr : String := ""

/-- Tag used by the model of the external argon2 credential service. -/
def hashTag : String := "argon2id$"

/-- Model of the external argon2 hasher (`hasher.hash`, src/main.py line
160): an opaque one-way function, modelled by tagging the input. -/
def hasherHash (password : String) : String := hashTag ++ password

/-- Model of `hasher.verify` (src/main.py line 188): verification succeeds
exactly when the stored hash is the hash of the supplied password;
`VerifyMismatchError` corresponds to the `false` result. -/
def hasherVerify (stored password : String) : Bool := stored == hasherHash password

/-- A document of the `Users` collection, as inserted by `register_user`
(src/main.py line 161): the `password` field holds the argon2 hash. -/
structure UserDoc where
  oid : Nat
  username : String
  password : String
deriving DecidableEq

/-- An entry of the `questions` array of a form.  `add_question` (src/main.py
line 285) stores only a `name` key, so the `answers` key may be absent:
`none` models the missing key. -/
structure QuestionDoc where
  name : String
  answers : Option (List String)
deriving DecidableEq

/-- A document of the `Forms` collection.  `post_form` (src/main.py line
241) stores `author`, `name` and `description`; the `id` and `questions`
keys are absent on a fresh document (modelled by `none`).  The `username`
field models the key probed by the filter in `get_user` (line 209); no
code path ever writes that key. -/
structure FormDoc where
  _id : BsonId
  author : String
  name : String
  description : String
  id : Option String
  questions : Option (List QuestionDoc)
  username : Option String
deriving DecidableEq

/-- The two collections of `pollingpairDB`, plus the ObjectId counter. -/
structure Store where
  users : List UserDoc
  forms : List FormDoc
  nextOid : Nat
deriving DecidableEq

/-- The store before any request has been served. -/
def emptyStore : Store := { users := [], forms := [], nextOid := 0 }

/-- Error message of `register_user` (src/main.py line 157). -/
def usernameTakenMsg : String := "The username has been found, please try another username"

/-- Error message of `login_user` (src/main.py line 183). -/
def loginUserNotFoundMsg : String := "User not found, please register"

/-- Error message of `login_user` (src/main.py line 192). -/
def credentialMismatchMsg : String := "The username and password doesn\x27t match"

/-- Error message of `get_user` (src/main.py line 208). -/
def usernameNotFoundMsg : String := "Username not found"

/-- Error message of `post_form` (src/main.py line 235). -/
def postUserNotFoundMsg : String := "User not found"

/-- Error message of `post_form` (src/main.py line 239). -/
def formNameBlankMsg : String := "The name of the form is blank, please try again"

/-- Error message of `add_question` (src/main.py line 268). -/
def formIdBlankMsg : String := "The form id is blank, please try again with the form form id"

/-- Error message of `add_question` and `answer_form` (src/main.py lines
273 and 314). -/
def formNotFoundMsg : String := "The form is not found"

/-- Error message of `add_question` (src/main.py lines 281-282, a
triple-quoted string containing a newline and the indentation). -/
def dupQuestionMsg : String := "Another question exists,\n                    please try again with another question"

/-- Error message of `answer_form` (src/main.py line 316). -/
def answersBlankMsg : String := "The answers are blank"

/-- Error message of `answer_form` (src/main.py line 321). -/
def notDictMsg : String := "The answer should be in a dictionary/JSON"

/-- Error message of `answer_form` (src/main.py lines 327 and 358). -/
def questionBlankMsg : String := "The question or the answer is blank"

/-- Error message of `answer_form` (src/main.py lines 336-337, a
triple-quoted string containing a newline and the indentation). -/
def noQuestionsMsg : String := "The user haven\x27t created a question in the form yet,\n                        please try again"

/-- Error message of `answer_form` (src/main.py line 344). -/
def questionNotInFormMsg : String := "The question is not in the form"

/-- Key of the `login_user` success body. -/
def statusKey : String := "status"

/-- Value of the `login_user` success body. -/
def okVal : String := "OK"

/-- The success body of `login_user` (src/main.py line 194): a constant
dictionary, independent of the store. -/
def loginOkBody : List (String × String) := [(statusKey, okVal)]

/-- `find_user` (src/main.py line 104): `find_one` on the `Users`
collection by exact username, returning the first match in insertion
order. -/
def find_user (s : Store) (username : String) : Option UserDoc :=
  s.users.find? (fun u => u.username == username)

/-- `find_one` on the `Forms` collection by the public `id` field, as in
`forms_collection.find_one({"id": form_id})` (src/main.py lines 271 and
309).  A document whose `id` key is absent matches no string filter. -/
def find_form (s : Store) (fid : String) : Option FormDoc :=
  s.forms.find? (fun f => f.id == some fid)

/-- Response of `register_user`: a 400 error body or the inserted document
(whose `_id` the handler returns stringified). -/
inductive RegisterResponse where
  | err400 (msg : String)
  | ok (data : UserDoc)
deriving DecidableEq

/-- `register_user` (src/main.py lines 138-164). -/
def register_user (s : Store) (username password : String) :
    RegisterResponse × Store :=
  match find_user s username with
  | some _ => (.err400 usernameTakenMsg, s)
  | none =>
    let data : UserDoc :=
      { oid := s.nextOid, username := username, password := hasherHash password }
    (.ok data,
     { users := s.users ++ [data], forms := s.forms, nextOid := s.nextOid + 1 })

/-- Response of `login_user`: a 400 error body or the success dictionary. -/
inductive LoginResponse where
  | err400 (msg : String)
  | ok (body : List (String × String))
deriving DecidableEq

/-- `login_user` (src/main.py lines 167-194).  The handler only mutates
local copies of the fetched document, so it returns no store. -/
def login_user (s : Store) (username password : String) : LoginResponse :=
  match find_user s username with
  | none => .err400 loginUserNotFoundMsg
  | some user_founded =>
    if hasherVerify user_founded.password password then .ok loginOkBody
    else .err400 credentialMismatchMsg

/-- Response of `get_user`: a 400 error body or the list of matched forms
(each with `_id` stringified). -/
inductive FormsResponse where
  | err400 (msg : String)
  | ok (forms : List FormDoc)
deriving DecidableEq

/-- `get_user` (src/main.py lines 197-217).  The source filters the forms
on a `username` field (`forms_collection.find({"username": username})`,
line 209); the `is None` check on the cursor (line 210) can never fire and
is omitted. -/
def get_user (s : Store) (username : String) : FormsResponse :=
  match find_user s username with
  | none => .err400 usernameNotFoundMsg
  | some _ =>
    let forms_found := s.forms.filter (fun f => f.username == some username)
    .ok (forms_found.map (fun f => { f with _id := strBson f._id }))

/-- Response of `post_form`: a 400 error body or the returned `data`
dictionary. -/
inductive PostFormResponse where
  | err400 (msg : String)
  | ok (data : FormDoc)
deriving DecidableEq

/-- `find_one_and_update({"_id": fid}, {"$set": {"id": v}})` (src/main.py
lines 248-251): sets the `id` field on the first form whose `_id` equals
the given BSON value. -/
def setFormId : List FormDoc → BsonId → String → List FormDoc
  | [], _, _ => []
  | f :: rest, fid, v =>
    if f._id = fid then { f with id := some v } :: rest
    else f :: setFormId rest fid v

/-- The `data` dictionary `post_form` builds and inserts (src/main.py
lines 241-246), after `insert_one` added the fresh ObjectId under `_id`:
only `author`, `name` and `description` are set, so the `id`, `questions`
and `username` keys are absent. -/
def newFormDoc (oid : Nat) (author fname : String) (description : Option String) :
    FormDoc :=
  { _id := .oid oid, author := author, name := fname,
    description := description.getD emptyStr,
    id := none, questions := none, username := none }

/-- `post_form` (src/main.py lines 220-252).  `insert_one` adds the new
document with a fresh ObjectId `_id`; the handler then overwrites
`data["_id"]` with its `str` form and uses that string as the `_id` filter
of the `id`-setting update. -/
def post_form (s : Store) (author fname : String) (description : Option String) :
    PostFormResponse × Store :=
  match find_user s author with
  | none => (.err400 postUserNotFoundMsg, s)
  | some user_founded =>
    if fname = emptyStr then (.err400 formNameBlankMsg, s)
    else
      let oid := s.nextOid
      let stored : FormDoc := newFormDoc oid user_founded.username fname description
      let s1 : Store := { s with forms := s.forms ++ [stored], nextOid := oid + 1 }
      let idStr := toString oid
      let s2 : Store := { s1 with forms := setFormId s1.forms (BsonId.str idStr) idStr }
      (.ok { stored with _id := .str idStr }, s2)

/-- Response of `add_question`: a 400 error body, the returned form, or
the unhandled `KeyError` raised at src/main.py line 275 when the fetched
form has no `questions` key. -/
inductive QuestionResponse where
  | err400 (msg : String)
  | ok (body : FormDoc)
  | crashKeyError
deriving DecidableEq

/-- `update_one({"id": form_id}, {"$set": {"questions": qs}})`
(src/main.py lines 290-292): replaces the `questions` array of the first
form whose `id` field equals `form_id`. -/
def updateFormQuestions : List FormDoc → String → List QuestionDoc → List FormDoc
  | [], _, _ => []
  | f :: rest, fid, qs =>
    if f.id == some fid then { f with questions := some qs } :: rest
    else f :: updateFormQuestions rest fid qs

/-- `add_question` (src/main.py lines 255-294).  `qname` is the `name`
field of the posted `Question` object; its `username` and `answers` fields
are accepted but never read.  The appended record carries only a `name`
key (line 285-289). -/
def add_question (s : Store) (username form_id qname : String)
    (answers : Option (List String)) : QuestionResponse × Store :=
  if form_id = emptyStr then (.err400 formIdBlankMsg, s)
  else
    match find_form s form_id with
    | none => (.err400 formNotFoundMsg, s)
    | some form_founded =>
      match form_founded.questions with
      | none => (.crashKeyError, s)
      | some questions_founded =>
        if questions_founded.any (fun q => q.name == qname) then
          (.err400 dupQuestionMsg, s)
        else
          let qs2 := questions_founded ++ [{ name := qname, answers := none }]
          (.ok { form_founded with
                 _id := strBson form_founded._id,
                 questions := some qs2 },
           { s with forms := updateFormQuestions s.forms form_id qs2 })

/-- One element of the JSON batch posted to `/answer/form_id`: either not
a dictionary at all, or a dictionary whose `question` and `answer` keys
may each be absent (values are modelled as strings). -/
inductive AnswerEntry where
  | notDict
  | dict (question : Option String) (answer : Option String)
deriving DecidableEq

/-- Response of `answer_form`: a 400 error body, the returned form, the
`None` return of a fallen-through loop (HTTP 200 with null body), or the
unhandled `TypeError` raised at src/main.py line 311 when `find_one`
returned `None`, or the unhandled `KeyError` raised at the same line when
the fetched form has no `questions` key. -/
inductive AnswerResponse where
  | err400 (msg : String)
  | ok (body : FormDoc)
  | okNull
  | crashNoneSubscript
  | crashKeyError
deriving DecidableEq

/-- Outcome of the inner `for i, question_name in enumerate(question_names)`
loop of `answer_form` (src/main.py lines 340-354). -/
inductive InnerOutcome where
  | notInForm
  | keyErr
  | matched (i : Nat) (answers_found : List String)
  | fallthrough
deriving DecidableEq

/-- `setQuestionAnswers qs i a` rewrites the `answers` key of question `i`
of the array `qs` (the effect of the `$set` path `questions.i.answers`). -/
def setQuestionAnswers : List QuestionDoc → Nat → List String → List QuestionDoc
  | [], _, _ => []
  | q :: rest, 0, a => { q with answers := some a } :: rest
  | q :: rest, i + 1, a => q :: setQuestionAnswers rest i a

/-- `update_one({"id": form_id}, {"$set": {"questions.i.answers": a}})`
(src/main.py lines 349-352): rewrites the answers of question `i` on the
first form whose `id` field equals `form_id`.  (In every call the matched
form is the one `find_one` returned, whose `questions` array is present.) -/
def updateFormAnswers : List FormDoc → String → Nat → List String → List FormDoc
  | [], _, _, _ => []
  | f :: rest, fid, i, a =>
    if f.id == some fid then
      { f with questions := some (setQuestionAnswers (f.questions.getD []) i a) } :: rest
    else
      f :: updateFormAnswers rest fid i a

/-- The inner loop of `answer_form` over `enumerate(question_names)`
(src/main.py lines 340-354), iterated in lockstep over the `questions`
array, since `question_names[i]` is `questions[i]["name"]`.  In loop
order: the `not in question_names` test (line 341), the access
`form_founded["questions"][i]["answers"]` (line 346, `KeyError` when the
key is absent), then the name comparison (line 347). -/
def answerInner (q : String) (question_names : List String) :
    List QuestionDoc → Nat → InnerOutcome
  | [], _ => .fallthrough
  | qd :: rest, i =>
    if question_names.contains q = false then .notInForm
    else
      match qd.answers with
      | none => .keyErr
      | some answers_found =>
        if q = qd.name then .matched i answers_found
        else answerInner q question_names rest (i + 1)

/-- The body of the outer `for answer in answers` loop of `answer_form`
(src/main.py lines 317-359) on one entry: `none` means the inner loop
fell through and the outer loop continues with the next entry.  The
short-circuit of line 324 and the `try`/`except KeyError` of lines
323-359 are made explicit. -/
def answer_entry (s : Store) (form_id : String) (form_founded : FormDoc)
    (questions : List QuestionDoc) : AnswerEntry → Option (AnswerResponse × Store)
  | .notDict => some (.err400 notDictMsg, s)
  | .dict qOpt aOpt =>
    match qOpt with
    | none => some (.err400 questionBlankMsg, s)
    | some q =>
      if q = emptyStr then some (.err400 questionBlankMsg, s)
      else
        match aOpt with
        | none => some (.err400 questionBlankMsg, s)
        | some a =>
          if a = emptyStr then some (.err400 questionBlankMsg, s)
          else
            let question_names := questions.map (fun qd => qd.name)
            if question_names.isEmpty then some (.err400 noQuestionsMsg, s)
            else
              match answerInner q question_names questions 0 with
              | .notInForm => some (.err400 questionNotInFormMsg, s)
              | .keyErr => some (.err400 questionBlankMsg, s)
              | .matched i answers_found =>
                let newAnswers := answers_found ++ [a]
                some (.ok { form_founded with
                            _id := strBson form_founded._id,
                            questions := some (setQuestionAnswers questions i newAnswers) },
                      { s with forms := updateFormAnswers s.forms form_id i newAnswers })
              | .fallthrough => none

/-- The outer `for answer in answers` loop of `answer_form`.  Falling off
the end returns `None` (HTTP 200 with null body).  A continued iteration
has performed no store mutation, so the store is threaded unchanged. -/
def answerLoop (s : Store) (form_id : String) (form_founded : FormDoc)
    (questions : List QuestionDoc) : List AnswerEntry → AnswerResponse × Store
  | [] => (.okNull, s)
  | e :: rest =>
    match answer_entry s form_id form_founded questions e with
    | some r => r
    | none => answerLoop s form_id form_founded questions rest

/-- `answer_form` (src/main.py lines 297-359).  Line 311 reads
`form_founded["questions"]` before the `is None` check of line 313, so a
missing form raises `TypeError` and a form without a `questions` key
raises `KeyError`, both unhandled; the empty-batch check (line 315) runs
after that access. -/
def answer_form (s : Store) (form_id : String) (answers : List AnswerEntry) :
    AnswerResponse × Store :=
  match find_form s form_id with
  | none => (.crashNoneSubscript, s)
  | some form_founded =>
    match form_founded.questions with
    | none => (.crashKeyError, s)
    | some questions =>
      if answers.isEmpty then (.err400 answersBlankMsg, s)
      else answerLoop s form_id form_founded questions answers

/-- Username used by the end-to-end scenario of the spec. -/
def alice : String := "alice"

/-- Password used by the end-to-end scenario of the spec. -/
def pw1 : String := "pw1"

/-- Form name used by the end-to-end scenario of the spec. -/
def survey1 : String := "Survey1"

/-- Question name used by the end-to-end scenario of the spec. -/
def favColor : String := "Favorite color?"

/-- Answer used by the end-to-end scenario of the spec. -/
def blue : String := "Blue"

/-- A second username, for concrete login checks. -/
def bob : String := "bob"

/-- The password of bob. -/
def pwBob : String := "hunter2"

/-- A wrong password. -/
def wrongPw : String := "nope"

/-- A question name for concrete checks. -/
def q1 : String := "Q1"

/-- An answer for concrete checks. -/
def a1 : String := "A1"

/-- A second answer for concrete checks. -/
def a2 : String := "A2"

/-- A form identifier for concrete checks. -/
def f1 : String := "f1"

/-- A username for concrete checks (`add_question` never reads it). -/
def uX : String := "u"

/-- The store after registering alice on the empty store. -/
def aliceStore : Store := (register_user emptyStore alice pw1).2

/-- The store after alice creates the Survey1 form. -/
def surveyStore : Store := (post_form aliceStore alice survey1 none).2

/-- The document `post_form` inserts in the scenario: alice has ObjectId 0,
the form ObjectId 1, and the `id` and `questions` keys are absent. -/
def surveyFormStored : FormDoc :=
  { _id := .oid 1, author := alice, name := survey1, description := emptyStr,
    id := none, questions := none, username := none }

/-- The store after registering bob on the empty store. -/
def bobStore : Store := (register_user emptyStore bob pwBob).2

/-- The stored user document of bob. -/
def bobRec : UserDoc := { oid := 0, username := bob, password := hasherHash pwBob }

/-- A form holding an empty `questions` array and a set `id` field, used
as a concrete input for the `add_question` claims. -/
def formC5 : FormDoc :=
  { _id := .oid 0, author := alice, name := survey1, description := emptyStr,
    id := some f1, questions := some [], username := none }

/-- A store holding `formC5`. -/
def sC5 : Store := { users := [], forms := [formC5], nextOid := 1 }

/-- A question record carrying an `answers` key. -/
def qDocC6 : QuestionDoc := { name := q1, answers := some [] }

/-- A form with one question that carries an `answers` key. -/
def formC6 : FormDoc :=
  { _id := .oid 0, author := alice, name := survey1, description := emptyStr,
    id := some f1, questions := some [qDocC6], username := none }

/-- A store holding `formC6`. -/
def sC6 : Store := { users := [], forms := [formC6], nextOid := 1 }

/-- A question record in the shape `add_question` stores: no `answers`
key. -/
def qDocC10 : QuestionDoc := { name := q1, answers := none }

/-- A form with one question that lacks the `answers` key. -/
def formC10 : FormDoc :=
  { _id := .oid 0, author := alice, name := survey1, description := emptyStr,
    id := some f1, questions := some [qDocC10], username := none }

/-- A store holding `formC10`. -/
def sC10 : Store := { users := [], forms := [formC10], nextOid := 1 }

/-- `FirstMatch aq qs i q0` says that `q0` is the question at index `i` of
the array `qs`, its `name` equals `aq`, and the `name` of no earlier question
does: it identifies the question the inner loop of `answer_form` reaches
first for the submitted name `aq`. -/
inductive FirstMatch (aq : String) : List QuestionDoc → Nat → QuestionDoc → Prop where
  | here (q : QuestionDoc) (rest : List QuestionDoc) (h : q.name = aq) :
      FirstMatch aq (q :: rest) 0 q
  | there (q : QuestionDoc) (rest : List QuestionDoc) (i : Nat) (q0 : QuestionDoc)
      (h : q.name ≠ aq) (tail : FirstMatch aq rest i q0) :
      FirstMatch aq (q :: rest) (i + 1) q0

/-- The stores reachable from the empty store through the state-changing
HTTP handlers.  `login_user` and `get_user` only read the store, so they
are omitted. -/
inductive Reachable : Store → Prop where
  | init : Reachable emptyStore
  | register (s : Store) (u p : String) (h : Reachable s) :
      Reachable (register_user s u p).2
  | postForm (s : Store) (a n : String) (d : Option String) (h : Reachable s) :
      Reachable (post_form s a n d).2
  | addQuestion (s : Store) (u fid qn : String) (ans : Option (List String))
      (h : Reachable s) : Reachable (add_question s u fid qn ans).2
  | answer (s : Store) (fid : String) (ans : List AnswerEntry) (h : Reachable s) :
      Reachable (answer_form s fid ans).2

/-- Claim C1: the end-to-end scenario (register alice/pw1, create the
Survey1 form, add the question via the returned form id, submit the Blue
answer) does not reach a stored form with questions[0].answers = [Blue]:
the create step returns the stringified ObjectId 1 as the only handle, the
add-question step answers 400 "The form is not found" and leaves the store
unchanged, the answer step dies on the unhandled subscript of None, and no
stored form ever carries a questions array. -/
theorem scenario_end_to_end_fails :
    (post_form aliceStore alice survey1 none).1
        = .ok { surveyFormStored with _id := .str (toString 1) }
    ∧ (add_question surveyStore alice (toString 1) favColor none).1
        = .err400 formNotFoundMsg
    ∧ (add_question surveyStore alice (toString 1) favColor none).2 = surveyStore
    ∧ answer_form surveyStore (toString 1) [.dict (some favColor) (some blue)]
        = (.crashNoneSubscript, surveyStore)
    ∧ ∀ f ∈ surveyStore.forms, f.questions = none := by decide

/-- Claim C2: after a successful creation (alice exists, name Survey1
non-empty) the response body has no `id` key, the stored form has no `id`
key either, and looking the form up by the string form of its
store-generated identifier finds nothing: the id-setting update filters on
the stringified `_id`, which matches no stored document. -/
theorem postForm_id_assignment_is_noop :
    (post_form aliceStore alice survey1 none).1
        = .ok { surveyFormStored with _id := .str (toString 1) }
    ∧ surveyFormStored.id = none
    ∧ surveyStore.forms = [surveyFormStored]
    ∧ find_form surveyStore (toString 1) = none := by decide

/-- Claim C3: for the known user alice, who has exactly one stored form
with author = alice, GET /forms/alice returns the empty list, because the
handler filters the forms on a `username` field that no form document
carries. -/
theorem listByAuthor_misses_authored_forms :
    get_user surveyStore alice = .ok []
    ∧ (surveyStore.forms.filter (fun f => f.author == alice)).length = 1 := by decide

/-- Claim C4: submitting a well-formed batch for a form id that matches no
stored form does not produce the 400 FormNotFound response: the handler
subscripts the None result of find_one before its None check, raising an
unhandled TypeError (the store is left unchanged). -/
theorem submitAnswers_crashes_on_missing_form :
    find_form emptyStore f1 = none
    ∧ answer_form emptyStore f1 [.dict (some q1) (some a1)]
        = (.crashNoneSubscript, emptyStore) := by decide

/-- Claim C8: registration fails with the duplicate-username error exactly
when a user with that username exists, and then the whole store (hence the
existing record) is unchanged; otherwise it persists the username with the
hashed password and returns the stored record. -/
theorem register_duplicate_iff_exists (s : Store) (u p : String) :
    (find_user s u ≠ none → register_user s u p = (.err400 usernameTakenMsg, s))
    ∧ ((register_user s u p).1 = .err400 usernameTakenMsg → find_user s u ≠ none)
    ∧ (find_user s u = none →
        register_user s u p
          = (.ok { oid := s.nextOid, username := u, password := hasherHash p },
             { users := s.users
                 ++ [{ oid := s.nextOid, username := u, password := hasherHash p }],
               forms := s.forms, nextOid := s.nextOid + 1 })) := by
  unfold register_user
  cases h : find_user s u <;> simp [h]

/-- Witness for C8: on the empty store, registering bob succeeds and
stores his record; registering bob again on the resulting store fails with
the duplicate-username error and leaves the store unchanged. -/
theorem register_duplicate_iff_exists_witness :
    register_user emptyStore bob pwBob
      = (.ok { oid := emptyStore.nextOid, username := bob,
               password := hasherHash pwBob },
         { users := emptyStore.users
             ++ [{ oid := emptyStore.nextOid, username := bob,
                   password := hasherHash pwBob }],
           forms := emptyStore.forms, nextOid := emptyStore.nextOid + 1 })
    ∧ register_user bobStore bob pwBob = (.err400 usernameTakenMsg, bobStore) := by
  constructor
  · exact (register_duplicate_iff_exists emptyStore bob pwBob).2.2 (by decide)
  · exact (register_duplicate_iff_exists bobStore bob pwBob).1 (by decide)

/-- Claim C9: login answers the user-not-found error exactly when no user
has the username, the credential-mismatch error exactly when the user
exists but verification fails, and otherwise the constant success body,
whose values never contain a stored password hash. -/
theorem login_results_characterization (s : Store) (u p : String) :
    (find_user s u = none ↔ login_user s u p = .err400 loginUserNotFoundMsg)
    ∧ (∀ rec, find_user s u = some rec →
        (hasherVerify rec.password p = false
          ↔ login_user s u p = .err400 credentialMismatchMsg))
    ∧ (∀ rec, find_user s u = some rec → hasherVerify rec.password p = true →
        login_user s u p = .ok loginOkBody)
    ∧ (∀ rec pw0, find_user s u = some rec → rec.password = hasherHash pw0 →
        rec.password ∉ loginOkBody.map Prod.snd) := by
  refine ⟨?_, ?_, ?_, ?_⟩
  · unfold login_user
    cases h : find_user s u with
    | none => simp
    | some rec =>
      simp only [h]
      constructor
      · intro hc; exact absurd hc (by simp)
      · intro hc
        by_cases hv : hasherVerify rec.password p
        · rw [if_pos hv] at hc; exact absurd hc (by simp)
        · rw [if_neg hv] at hc
          have : credentialMismatchMsg = loginUserNotFoundMsg := by
            injection hc
          exact absurd this (by decide)
  · intro rec hrec
    unfold login_user
    simp only [hrec]
    by_cases hv : hasherVerify rec.password p
    · rw [if_pos hv]
      constructor
      · intro hf; rw [hf] at hv; exact absurd hv (by decide)
      · intro hc; exact absurd hc (by simp)
    · rw [if_neg hv]
      constructor
      · intro _; rfl
      · intro _; exact Bool.eq_false_iff.mpr hv
  · intro rec hrec hv
    unfold login_user
    simp only [hrec]
    rw [if_pos hv]
  · intro rec pw0 _ hpw
    rw [hpw]
    intro hmem
    have h1 : hasherHash pw0 = okVal := by
      simpa [loginOkBody] using hmem
    have hlen := congrArg String.length h1
    rw [hasherHash, String.length_append] at hlen
    have h9 : hashTag.length = 9 := by decide
    have h2 : okVal.length = 2 := by decide
    rw [h9, h2] at hlen
    omega

/-- Witness for C9: bob registered with pwBob gets the success body with
the correct password, the mismatch error with a wrong password, and the
not-found error on the empty store; the success body does not contain his
stored hash. -/
theorem login_results_characterization_witness :
    login_user emptyStore bob pwBob = .err400 loginUserNotFoundMsg
    ∧ login_user bobStore bob wrongPw = .err400 credentialMismatchMsg
    ∧ login_user bobStore bob pwBob = .ok loginOkBody
    ∧ bobRec.password ∉ loginOkBody.map Prod.snd := by
  refine ⟨?_, ?_, ?_, ?_⟩
  · exact (login_results_characterization emptyStore bob pwBob).1.mp (by decide)
  · exact ((login_results_characterization bobStore bob wrongPw).2.1 bobRec
      (by decide)).mp (by decide)
  · exact (login_results_characterization bobStore bob pwBob).2.2.1 bobRec
      (by decide) (by decide)
  · exact (login_results_characterization bobStore bob pwBob).2.2.2 bobRec pwBob
      (by decide) (by decide)

/-- `register_user` never touches the `Forms` collection. -/
theorem register_user_forms (s : Store) (u p : String) :
    (register_user s u p).2.forms = s.forms := by
  unfold register_user
  cases h : find_user s u <;> simp [h]

/-- An `_id` filter holding a string value matches no document whose
`_id` is an ObjectId, so the `id`-setting update of `post_form` leaves
such a collection unchanged. -/
theorem setFormId_str_of_oid (forms : List FormDoc) (t v : String)
    (h : ∀ f ∈ forms, ∃ n, f._id = BsonId.oid n) :
    setFormId forms (BsonId.str t) v = forms := by
  induction forms with
  | nil => rfl
  | cons f rest ih =>
    obtain ⟨n, hn⟩ := h f (List.mem_cons_self _ _)
    unfold setFormId
    rw [if_neg (by simp [hn]), ih (fun g hg => h g (List.mem_cons_of_mem _ hg))]

/-- A lookup by the `id` field finds nothing in a collection where no
document carries an `id` key. -/
theorem find_eq_none_of_id_none (forms : List FormDoc) (fid : String)
    (h : ∀ f ∈ forms, f.id = none) :
    forms.find? (fun f => f.id == some fid) = none := by
  induction forms with
  | nil => rfl
  | cons f rest ih =>
    have hf := h f (List.mem_cons_self _ _)
    rw [List.find?_cons_of_neg _ (by simp [hf])]
    exact ih (fun g hg => h g (List.mem_cons_of_mem _ hg))

/-- Store invariant of the reachable states: every stored form has an
ObjectId `_id` and carries neither an `id` key nor a `questions` key
(the `id`-setting update of `post_form` never matches, and without an
`id` key no form is ever found again by `add_question` or
`answer_form`). -/
theorem reachable_forms_inv (s : Store) (h : Reachable s) :
    ∀ f ∈ s.forms, f.id = none ∧ f.questions = none ∧ ∃ n, f._id = BsonId.oid n := by
  induction h with
  | init =>
    intro f hf
    exact absurd hf (by simp [emptyStore])
  | register s1 u p h ih =>
    intro f hf
    rw [register_user_forms] at hf
    exact ih f hf
  | postForm s1 a n d h ih =>
    intro f hf
    unfold post_form at hf
    cases hu : find_user s1 a with
    | none =>
      simp only [hu] at hf
      exact ih f hf
    | some u0 =>
      simp only [hu] at hf
      by_cases hn : n = emptyStr
      · rw [if_pos hn] at hf
        exact ih f hf
      · rw [if_neg hn] at hf
        have hf2 : f ∈ setFormId (s1.forms ++ [newFormDoc s1.nextOid u0.username n d])
            (BsonId.str (toString s1.nextOid)) (toString s1.nextOid) := hf
        have hall : ∀ g ∈ s1.forms ++ [newFormDoc s1.nextOid u0.username n d],
            ∃ m, g._id = BsonId.oid m := by
          intro g hg
          rcases List.mem_append.mp hg with h1 | h2
          · exact (ih g h1).2.2
          · rw [List.mem_singleton.mp h2]
            exact ⟨s1.nextOid, rfl⟩
        rw [setFormId_str_of_oid _ _ _ hall] at hf2
        rcases List.mem_append.mp hf2 with h1 | h2
        · exact ih f h1
        · rw [List.mem_singleton.mp h2]
          exact ⟨rfl, rfl, s1.nextOid, rfl⟩
  | addQuestion s1 u fid qn ans h ih =>
    intro f hf
    unfold add_question at hf
    by_cases hfid : fid = emptyStr
    · rw [if_pos hfid] at hf
      exact ih f hf
    · rw [if_neg hfid] at hf
      have hnone : find_form s1 fid = none :=
        find_eq_none_of_id_none s1.forms fid (fun g hg => (ih g hg).1)
      simp only [hnone] at hf
      exact ih f hf
  | answer s1 fid ans h ih =>
    intro f hf
    unfold answer_form at hf
    have hnone : find_form s1 fid = none :=
      find_eq_none_of_id_none s1.forms fid (fun g hg => (ih g hg).1)
    simp only [hnone] at hf
    exact ih f hf

/-- Claim C7: in every reachable store, no form holds two questions with
the same name (its question sequence, when absent, is read as empty); and
whenever a stored form is found whose questions already contain the posted
name, `add_question` answers the duplicate-question error and returns the
store unchanged. -/
theorem question_names_unique_and_duplicate_rejected :
    (∀ s, Reachable s → ∀ f ∈ s.forms,
        (((f.questions.getD []).map QuestionDoc.name).Nodup))
    ∧ (∀ (s : Store) (u fid qn : String) (ans : Option (List String))
          (form : FormDoc) (qs : List QuestionDoc),
        fid ≠ emptyStr → find_form s fid = some form → form.questions = some qs →
        (∃ q ∈ qs, q.name = qn) →
        add_question s u fid qn ans = (.err400 dupQuestionMsg, s)) := by
  constructor
  · intro s hs f hf
    rw [(reachable_forms_inv s hs f hf).2.1]
    simp
  · intro s u fid qn ans form qs hfid hfind hqs hdup
    have hany : (qs.any fun q => q.name == qn) = true := by
      obtain ⟨q, hq, hname⟩ := hdup
      exact List.any_eq_true.mpr ⟨q, hq, by simp [hname]⟩
    unfold add_question
    rw [if_neg hfid]
    simp only [hfind, hqs, hany, if_true]

/-- Witness for C7: the reachable store of the end-to-end scenario
satisfies the uniqueness invariant on its stored form, and a concrete
duplicate `add_question` call is rejected with the store unchanged. -/
theorem question_names_unique_and_duplicate_rejected_witness :
    (((surveyFormStored.questions.getD []).map QuestionDoc.name).Nodup)
    ∧ add_question sC10 uX f1 q1 none = (.err400 dupQuestionMsg, sC10) := by
  constructor
  · exact question_names_unique_and_duplicate_rejected.1 surveyStore
      (Reachable.postForm aliceStore alice survey1 none
        (Reachable.register emptyStore alice pw1 Reachable.init))
      surveyFormStored (by decide)
  · exact question_names_unique_and_duplicate_rejected.2 sC10 uX f1 q1 none
      formC10 [qDocC10] (by decide) (by decide) (by decide)
      ⟨qDocC10, by decide, by decide⟩

/-- Counterexample for C5: on a store holding a form with id f1 and an
empty question array, adding question Q1 stores the record with no
`answers` key, not the record with `answers = []` the claim describes. -/
theorem addQuestion_omits_answers_key :
    find_form (add_question sC5 uX f1 q1 none).2 f1
        = some { formC5 with questions := some [{ name := q1, answers := none }] }
    ∧ ¬ (find_form (add_question sC5 uX f1 q1 none).2 f1
        = some { formC5 with
                 questions := some [{ name := q1, answers := some [] }] }) := by
  decide

/-- Replacing the `questions` array of the first form matching an `id`
filter is seen by a subsequent lookup with the same filter. -/
theorem updateFormQuestions_find (forms : List FormDoc) (fid : String)
    (qs : List QuestionDoc) (form : FormDoc)
    (h : forms.find? (fun f => f.id == some fid) = some form) :
    (updateFormQuestions forms fid qs).find? (fun f => f.id == some fid)
      = some { form with questions := some qs } := by
  induction forms with
  | nil => exact absurd h (by simp)
  | cons f rest ih =>
    by_cases hid : (f.id == some fid) = true
    · rw [show ((f :: rest).find? (fun g : FormDoc => g.id == some fid)) = some f
          from List.find?_cons_of_pos _ hid] at h
      injection h with h
      subst h
      unfold updateFormQuestions
      rw [if_pos hid]
      exact List.find?_cons_of_pos _ hid
    · rw [show ((f :: rest).find? (fun g : FormDoc => g.id == some fid))
            = rest.find? (fun g : FormDoc => g.id == some fid)
          from List.find?_cons_of_neg _ hid] at h
      unfold updateFormQuestions
      rw [if_neg hid,
          show ((f :: updateFormQuestions rest fid qs).find?
                  (fun g : FormDoc => g.id == some fid))
              = (updateFormQuestions rest fid qs).find? (fun g : FormDoc => g.id == some fid)
          from List.find?_cons_of_neg _ hid]
      exact ih h

/-- Claim C5 (amended): on an existing form with a non-blank id and a
fresh question name, `add_question` appends exactly the record carrying
only the `name` key (no `answers` key) to the end of the question array,
persists that array, and returns the updated form. -/
theorem addQuestion_appends_name_only (s : Store) (u fid qn : String)
    (ans : Option (List String)) (form : FormDoc) (qs : List QuestionDoc)
    (hfid : fid ≠ emptyStr) (hfind : find_form s fid = some form)
    (hqs : form.questions = some qs) (hnodup : ∀ q ∈ qs, q.name ≠ qn) :
    add_question s u fid qn ans
      = (.ok { form with
               _id := strBson form._id,
               questions := some (qs ++ [{ name := qn, answers := none }]) },
         { s with forms := updateFormQuestions s.forms fid
                    (qs ++ [{ name := qn, answers := none }]) })
    ∧ find_form (add_question s u fid qn ans).2 fid
        = some { form with
                 questions := some (qs ++ [{ name := qn, answers := none }]) } := by
  have hany : (qs.any fun q => q.name == qn) = false := by
    rw [List.any_eq_false]
    intro q hq
    simp [hnodup q hq]
  have hmain : add_question s u fid qn ans
      = (.ok { form with
               _id := strBson form._id,
               questions := some (qs ++ [{ name := qn, answers := none }]) },
         { s with forms := updateFormQuestions s.forms fid
                    (qs ++ [{ name := qn, answers := none }]) }) := by
    unfold add_question
    rw [if_neg hfid]
    simp only [hfind, hqs, hany, Bool.false_eq_true, if_false]
  refine ⟨hmain, ?_⟩
  rw [hmain]
  exact updateFormQuestions_find s.forms fid _ form hfind

/-- Witness for C5: the amended behavior at the concrete store sC5. -/
theorem addQuestion_appends_name_only_witness :
    add_question sC5 uX f1 q1 none
      = (.ok { formC5 with
               _id := strBson formC5._id,
               questions := some ([] ++ [{ name := q1, answers := none }]) },
         { sC5 with forms := updateFormQuestions sC5.forms f1
                      ([] ++ [{ name := q1, answers := none }]) })
    ∧ find_form (add_question sC5 uX f1 q1 none).2 f1
        = some { formC5 with
                 questions := some ([] ++ [{ name := q1, answers := none }]) } :=
  addQuestion_appends_name_only sC5 uX f1 q1 none formC5 []
    (by decide) (by decide) (by decide) (by decide)

/-- The question a `FirstMatch` points at belongs to the array. -/
theorem firstMatch_mem {aq : String} {qs : List QuestionDoc} {i : Nat}
    {q0 : QuestionDoc} (h : FirstMatch aq qs i q0) : q0 ∈ qs := by
  induction h with
  | here q rest hq => exact List.mem_cons_self _ _
  | there q rest i q0 hq tail ih => exact List.mem_cons_of_mem _ ih

/-- The question a `FirstMatch` points at carries the submitted name. -/
theorem firstMatch_name {aq : String} {qs : List QuestionDoc} {i : Nat}
    {q0 : QuestionDoc} (h : FirstMatch aq qs i q0) : q0.name = aq := by
  induction h with
  | here q rest hq => exact hq
  | there q rest i q0 hq tail ih => exact ih

/-- The index a `FirstMatch` points at holds its question. -/
theorem firstMatch_get {aq : String} {qs : List QuestionDoc} {i : Nat}
    {q0 : QuestionDoc} (h : FirstMatch aq qs i q0) : qs.get? i = some q0 := by
  induction h with
  | here q rest hq => rfl
  | there q rest i q0 hq tail ih => exact ih

/-- When the submitted name is among the question names and the first
matching question carries an `answers` key, the inner loop of
`answer_form` stops at that question with its stored answers. -/
theorem answerInner_matched (aq : String) (names : List String)
    (hc : names.contains aq = true) :
    ∀ (qs : List QuestionDoc) (i : Nat) (q0 : QuestionDoc) (old : List String)
      (k : Nat), FirstMatch aq qs i q0 → q0.answers = some old →
      (∀ q ∈ qs, q.answers ≠ none) →
      answerInner aq names qs k = .matched (k + i) old := by
  intro qs i q0 old k hfm
  induction hfm generalizing k with
  | here q rest hq =>
    intro hold hall
    unfold answerInner
    rw [if_neg (by rw [hc]; simp)]
    simp only [hold]
    rw [if_pos hq.symm, Nat.add_zero]
  | there q rest i q0 hq tail ih =>
    intro hold hall
    unfold answerInner
    rw [if_neg (by rw [hc]; simp)]
    cases hqq : q.answers with
    | none => exact absurd hqq (hall q (List.mem_cons_self _ _))
    | some old2 =>
      simp only [hqq]
      rw [if_neg (fun he => hq he.symm),
          ih (k + 1) hold (fun g hg => hall g (List.mem_cons_of_mem _ hg))]
      congr 1
      omega

/-- When the submitted name is among the question names but the first
matching question (or an earlier one) has no `answers` key, the inner
loop of `answer_form` raises `KeyError`. -/
theorem answerInner_keyErr (aq : String) (names : List String)
    (hc : names.contains aq = true) :
    ∀ (qs : List QuestionDoc) (i : Nat) (q0 : QuestionDoc) (k : Nat),
      FirstMatch aq qs i q0 → q0.answers = none →
      answerInner aq names qs k = .keyErr := by
  intro qs i q0 k hfm
  induction hfm generalizing k with
  | here q rest hq =>
    intro hnone
    unfold answerInner
    rw [if_neg (by rw [hc]; simp)]
    simp only [hnone]
  | there q rest i q0 hq tail ih =>
    intro hnone
    unfold answerInner
    rw [if_neg (by rw [hc]; simp)]
    cases hqq : q.answers with
    | none => simp only [hqq]
    | some old2 =>
      simp only [hqq]
      rw [if_neg (fun he => hq he.symm)]
      exact ih (k + 1) hnone

/-- Rewriting the `answers` of question `i` changes exactly position `i`. -/
theorem setQuestionAnswers_get_self (qs : List QuestionDoc) (i : Nat)
    (a : List String) (q0 : QuestionDoc) (h : qs.get? i = some q0) :
    (setQuestionAnswers qs i a).get? i = some { q0 with answers := some a } := by
  induction qs generalizing i with
  | nil => exact absurd h (by simp)
  | cons q rest ih =>
    cases i with
    | zero =>
      have hq : q = q0 := by simpa using h
      subst hq
      rfl
    | succ i => exact ih i h

/-- Rewriting the `answers` of question `i` leaves every other position
unchanged. -/
theorem setQuestionAnswers_get_ne (qs : List QuestionDoc) (i j : Nat)
    (a : List String) (hne : j ≠ i) :
    (setQuestionAnswers qs i a).get? j = qs.get? j := by
  induction qs generalizing i j with
  | nil => rfl
  | cons q rest ih =>
    cases i with
    | zero =>
      cases j with
      | zero => exact absurd rfl hne
      | succ j => rfl
    | succ i =>
      cases j with
      | zero => rfl
      | succ j => exact ih i j (fun hh => hne (by rw [hh]))

/-- Rewriting the answers of question `i` on the first form matching an
`id` filter is seen by a subsequent lookup with the same filter. -/
theorem updateFormAnswers_find (forms : List FormDoc) (fid : String) (i : Nat)
    (a : List String) (form : FormDoc)
    (h : forms.find? (fun f => f.id == some fid) = some form) :
    (updateFormAnswers forms fid i a).find? (fun f => f.id == some fid)
      = some { form with
               questions := some (setQuestionAnswers (form.questions.getD []) i a) } := by
  induction forms with
  | nil => exact absurd h (by simp)
  | cons f rest ih =>
    by_cases hid : (f.id == some fid) = true
    · rw [show ((f :: rest).find? (fun g : FormDoc => g.id == some fid)) = some f
          from List.find?_cons_of_pos _ hid] at h
      injection h with h
      subst h
      unfold updateFormAnswers
      rw [if_pos hid]
      exact List.find?_cons_of_pos _ hid
    · rw [show ((f :: rest).find? (fun g : FormDoc => g.id == some fid))
            = rest.find? (fun g : FormDoc => g.id == some fid)
          from List.find?_cons_of_neg _ hid] at h
      unfold updateFormAnswers
      rw [if_neg hid,
          show ((f :: updateFormAnswers rest fid i a).find?
                  (fun g : FormDoc => g.id == some fid))
              = (updateFormAnswers rest fid i a).find? (fun g : FormDoc => g.id == some fid)
          from List.find?_cons_of_neg _ hid]
      exact ih h

/-- Evaluation of `answer_form` on a batch headed by a well-formed entry,
against a found form with a non-empty question array: everything reduces
to the outcome of the inner loop, and only the fallthrough outcome ever
looks at the rest of the batch. -/
theorem answer_form_cons_reduce (s : Store) (fid : String) (form : FormDoc)
    (qs : List QuestionDoc) (aq aa : String) (rest : List AnswerEntry)
    (hfind : find_form s fid = some form) (hqs : form.questions = some qs)
    (hq : aq ≠ emptyStr) (ha : aa ≠ emptyStr) (hne : qs ≠ []) :
    answer_form s fid (AnswerEntry.dict (some aq) (some aa) :: rest)
      = match answerInner aq (qs.map fun qd => qd.name) qs 0 with
        | .notInForm => (.err400 questionNotInFormMsg, s)
        | .keyErr => (.err400 questionBlankMsg, s)
        | .matched i2 old =>
            (.ok { form with
                   _id := strBson form._id,
                   questions := some (setQuestionAnswers qs i2 (old ++ [aa])) },
             { s with forms := updateFormAnswers s.forms fid i2 (old ++ [aa]) })
        | .fallthrough => answerLoop s fid form qs rest := by
  have hmapne : (qs.map fun qd => qd.name).isEmpty = false := by
    cases qs with
    | nil => exact absurd rfl hne
    | cons q0 qrest => rfl
  simp only [answer_form, hfind, hqs, answerLoop, answer_entry, List.isEmpty_cons,
    Bool.false_eq_true, if_false, if_neg hq, if_neg ha, hmapne]
  cases hai : answerInner aq (qs.map fun qd => qd.name) qs 0 <;> rfl

/-- Claim C6: on a well-formed batch whose first entry names an existing
question of a found form (all of whose question records carry `answers`
keys), `answer_form` appends the answer of the first entry to the first
matching question, persists exactly that one update, and returns
immediately: the result does not depend on the rest of the batch, so a
two-entry batch for the same question commits only the first answer. -/
theorem submitAnswers_first_match_only (s : Store) (fid : String) (form : FormDoc)
    (qs : List QuestionDoc) (aq aa : String) (i : Nat) (q0 : QuestionDoc)
    (old : List String) (rest : List AnswerEntry)
    (hfind : find_form s fid = some form) (hqs : form.questions = some qs)
    (hfm : FirstMatch aq qs i q0) (hold : q0.answers = some old)
    (hall : ∀ q ∈ qs, q.answers ≠ none)
    (hq : aq ≠ emptyStr) (ha : aa ≠ emptyStr) :
    answer_form s fid (AnswerEntry.dict (some aq) (some aa) :: rest)
      = answer_form s fid [AnswerEntry.dict (some aq) (some aa)]
    ∧ answer_form s fid (AnswerEntry.dict (some aq) (some aa) :: rest)
      = (.ok { form with
               _id := strBson form._id,
               questions := some (setQuestionAnswers qs i (old ++ [aa])) },
         { s with forms := updateFormAnswers s.forms fid i (old ++ [aa]) })
    ∧ find_form { s with forms := updateFormAnswers s.forms fid i (old ++ [aa]) } fid
      = some { form with questions := some (setQuestionAnswers qs i (old ++ [aa])) }
    ∧ (setQuestionAnswers qs i (old ++ [aa])).get? i
      = some { q0 with answers := some (old ++ [aa]) }
    ∧ ∀ j, j ≠ i → (setQuestionAnswers qs i (old ++ [aa])).get? j = qs.get? j := by
  have hmem : aq ∈ qs.map (fun qd => qd.name) :=
    List.mem_map.mpr ⟨q0, firstMatch_mem hfm, firstMatch_name hfm⟩
  have hc : (qs.map fun qd => qd.name).contains aq = true :=
    List.elem_eq_true_of_mem hmem
  have hne : qs ≠ [] := by cases hfm <;> simp
  have hinner := answerInner_matched aq (qs.map fun qd => qd.name) hc qs i q0 old 0
    hfm hold hall
  rw [Nat.zero_add] at hinner
  have h1 := answer_form_cons_reduce s fid form qs aq aa rest hfind hqs hq ha hne
  have h2 := answer_form_cons_reduce s fid form qs aq aa [] hfind hqs hq ha hne
  rw [hinner] at h1 h2
  have h3 := updateFormAnswers_find s.forms fid i (old ++ [aa]) form hfind
  rw [hqs] at h3
  simp only [Option.getD_some] at h3
  exact ⟨h1.trans h2.symm, h1, h3,
    setQuestionAnswers_get_self qs i (old ++ [aa]) q0 (firstMatch_get hfm),
    fun j hj => setQuestionAnswers_get_ne qs i j (old ++ [aa]) hj⟩

/-- Witness for C6: on the concrete store sC6, a two-entry batch for Q1
equals the one-entry batch and commits exactly the answer A1. -/
theorem submitAnswers_first_match_only_witness :
    answer_form sC6 f1
        [AnswerEntry.dict (some q1) (some a1), AnswerEntry.dict (some q1) (some a2)]
      = answer_form sC6 f1 [AnswerEntry.dict (some q1) (some a1)]
    ∧ answer_form sC6 f1
        [AnswerEntry.dict (some q1) (some a1), AnswerEntry.dict (some q1) (some a2)]
      = (.ok { formC6 with
               _id := strBson formC6._id,
               questions := some (setQuestionAnswers [qDocC6] 0 ([] ++ [a1])) },
         { sC6 with forms := updateFormAnswers sC6.forms f1 0 ([] ++ [a1]) }) := by
  have h := submitAnswers_first_match_only sC6 f1 formC6 [qDocC6] q1 a1 0 qDocC6 []
    [AnswerEntry.dict (some q1) (some a2)] (by decide) (by decide)
    (FirstMatch.here qDocC6 [] rfl) rfl (by decide) (by decide) (by decide)
  exact ⟨h.1, h.2.1⟩

/-- Claim C10: on a batch whose first well-formed entry names a question
stored in the shape `add_question` writes (no `answers` key), the access
`form_founded["questions"][i]["answers"]` raises `KeyError`, the handler
catches it and answers 400 "The question or the answer is blank", and the
store is returned unchanged. -/
theorem submitAnswers_missing_answers_key_gives_blank_error (s : Store)
    (fid : String) (form : FormDoc) (qs : List QuestionDoc) (aq aa : String)
    (i : Nat) (q0 : QuestionDoc) (rest : List AnswerEntry)
    (hfind : find_form s fid = some form) (hqs : form.questions = some qs)
    (hfm : FirstMatch aq qs i q0) (hnone : q0.answers = none)
    (hq : aq ≠ emptyStr) (ha : aa ≠ emptyStr) :
    answer_form s fid (AnswerEntry.dict (some aq) (some aa) :: rest)
      = (.err400 questionBlankMsg, s) := by
  have hmem : aq ∈ qs.map (fun qd => qd.name) :=
    List.mem_map.mpr ⟨q0, firstMatch_mem hfm, firstMatch_name hfm⟩
  have hc : (qs.map fun qd => qd.name).contains aq = true :=
    List.elem_eq_true_of_mem hmem
  have hne : qs ≠ [] := by cases hfm <;> simp
  have hinner := answerInner_keyErr aq (qs.map fun qd => qd.name) hc qs i q0 0
    hfm hnone
  have h1 := answer_form_cons_reduce s fid form qs aq aa rest hfind hqs hq ha hne
  rw [hinner] at h1
  exact h1

/-- Witness for C10: on the concrete store sC10, whose only question was
stored without an `answers` key, submitting an answer for it yields the
blank-error response and the unchanged store. -/
theorem submitAnswers_missing_answers_key_gives_blank_error_witness :
    answer_form sC10 f1 [AnswerEntry.dict (some q1) (some a1)]
      = (.err400 questionBlankMsg, sC10) :=
  submitAnswers_missing_answers_key_gives_blank_error sC10 f1 formC10 [qDocC10]
    q1 a1 0 qDocC10 [] (by decide) (by decide)
    (FirstMatch.here qDocC10 [] rfl) rfl (by decide) (by decide)

end Survey
